import Mathlib

/-!
Shallow embedding of `config.go` from the sarama Kafka client: the `Config`
aggregate, the default constructor `NewConfig`, and the validation gate
`Config.Validate`.  Go durations (`time.Duration`) are `int64` nanosecond
counts, embedded as `Int`; Go's `%` (truncating remainder) is `Int.tmod`.
The validator's `Logger.Println` side channel is embedded by returning the
list of advisory lines alongside the fatal-error result.
-/

namespace Sarama

/-- One millisecond in nanoseconds, as Go's `time.Millisecond` (Go
`time.Duration` values are `int64` nanosecond counts, embedded as `Int`). -/
def Millisecond : Int := 1000000

/-- One second in nanoseconds, as Go's `time.Second`. -/
def Second : Int := 1000000000

/-- One minute in nanoseconds, as Go's `time.Minute`. -/
def Minute : Int := 60000000000

/-- Modelled from the spec: the `WaitForLocal` acknowledgement mode has
value 1 ("RequiredAcks=WaitForLocal (value 1)"); the `RequiredAcks` type
itself is a "signed small integer enum (-1 = all, 0 = none, 1 = local)"
declared outside this excerpt and is embedded as `Int`, which the
validator only compares as a signed integer. -/
def WaitForLocal : Int := 1

/-- Modelled from the spec: an opaque "partitioner-constructor type";
validation only checks presence (non-nil), so a single opaque constructor
value suffices, with Go's `nil` embedded as `Option.none`. -/
inductive PartitionerConstructor where
  | NewHashPartitioner
deriving Repr, DecidableEq

/-- Modelled from the spec: a "typed configuration error carrying a
human-readable message string" (Go: `type ConfigurationError string`). -/
abbrev ConfigurationError := String

/-- The `Net` namespace of `Config` (network-level properties). -/
structure NetConfig where
  MaxOpenRequests : Int
  DialTimeout : Int
  ReadTimeout : Int
  WriteTimeout : Int
  KeepAlive : Int
deriving Repr, DecidableEq

/-- The `Metadata.Retry` sub-record of `Config`. -/
structure MetadataRetryConfig where
  Max : Int
  Backoff : Int
deriving Repr, DecidableEq

/-- The `Metadata` namespace of `Config`. -/
structure MetadataConfig where
  Retry : MetadataRetryConfig
  RefreshFrequency : Int
deriving Repr, DecidableEq

/-- The `Producer.Return` sub-record of `Config`. -/
structure ProducerReturnConfig where
  Successes : Bool
  Errors : Bool
deriving Repr, DecidableEq

/-- The `Producer.Flush` sub-record of `Config`. -/
structure ProducerFlushConfig where
  Bytes : Int
  Messages : Int
  Frequency : Int
  MaxMessages : Int
deriving Repr, DecidableEq

/-- The `Producer.Retry` sub-record of `Config`. -/
structure ProducerRetryConfig where
  Max : Int
  Backoff : Int
deriving Repr, DecidableEq

/-- The `Producer` namespace of `Config`. -/
structure ProducerConfig where
  MaxMessageBytes : Int
  RequiredAcks : Int
  Timeout : Int
  Compression : Int
  Partitioner : Option PartitionerConstructor
  Return : ProducerReturnConfig
  Flush : ProducerFlushConfig
  Retry : ProducerRetryConfig
deriving Repr, DecidableEq

/-- The `Consumer.Retry` sub-record of `Config`. -/
structure ConsumerRetryConfig where
  Backoff : Int
deriving Repr, DecidableEq

/-- The `Consumer.Fetch` sub-record of `Config` (`int32` fields in Go,
embedded as `Int`: the validator only compares them to zero, so the
embedding agrees with Go on every representable value). -/
structure ConsumerFetchConfig where
  Min : Int
  Default : Int
  Max : Int
deriving Repr, DecidableEq

/-- The `Consumer.Return` sub-record of `Config`. -/
structure ConsumerReturnConfig where
  Errors : Bool
deriving Repr, DecidableEq

/-- The `Consumer` namespace of `Config`. -/
structure ConsumerConfig where
  Retry : ConsumerRetryConfig
  Fetch : ConsumerFetchConfig
  MaxWaitTime : Int
  Return : ConsumerReturnConfig
deriving Repr, DecidableEq

/-- `Config` from `config.go`: the aggregate of network, metadata,
producer and consumer settings plus the two top-level shared fields. -/
structure Config where
  Net : NetConfig
  Metadata : MetadataConfig
  Producer : ProducerConfig
  Consumer : ConsumerConfig
  ClientID : String
  ChannelBufferSize : Int
deriving Repr, DecidableEq

/-- `NewConfig` from `config.go`: a fresh zero-valued `Config` (Go zero
values: integers and durations 0, booleans false, strings empty, the
partitioner reference nil) with the listed fields then set to their
defaults. -/
def NewConfig : Config :=
  { Net := { MaxOpenRequests := 5
             DialTimeout := 30 * Second
             ReadTimeout := 30 * Second
             WriteTimeout := 30 * Second
             KeepAlive := 0 }
    Metadata := { Retry := { Max := 3, Backoff := 250 * Millisecond }
                  RefreshFrequency := 10 * Minute }
    Producer := { MaxMessageBytes := 1000000
                  RequiredAcks := WaitForLocal
                  Timeout := 10 * Second
                  Compression := 0
                  Partitioner := some PartitionerConstructor.NewHashPartitioner
                  Return := { Successes := false, Errors := true }
                  Flush := { Bytes := 0, Messages := 0, Frequency := 0, MaxMessages := 0 }
                  Retry := { Max := 3, Backoff := 100 * Millisecond } }
    Consumer := { Retry := { Backoff := 2 * Second }
                  Fetch := { Min := 1, Default := 32768, Max := 0 }
                  MaxWaitTime := 250 * Millisecond
                  Return := { Errors := false } }
    ClientID := ""
    ChannelBufferSize := 256 }

/-- Modelled from the spec: the "global hard ceiling function/constant
(`forceFlushThreshold`) representing the maximum permissible single-request
byte size; the validator reads it but does not define it".  Its definition
is outside this excerpt; it is fixed here to a large positive constant
(100 MiB less 10 KiB of head-room).  Only the advisory (non-fatal) checks
read it, so no fatal-validation result depends on its value. -/
def forceFlushThreshold : Int := 104847360

/-- The advisory line logged when `Producer.RequiredAcks > 1`. -/
def acksWarning : String :=
  "Producer.RequiredAcks > 1 is deprecated and will raise an exception with kafka >= 0.8.2.0."

/-- The advisory line logged when `Producer.MaxMessageBytes` reaches the ceiling. -/
def maxMessageBytesWarning : String :=
  "Producer.MaxMessageBytes is too close to MaxRequestSize; it will be ignored."

/-- The advisory line logged when `Producer.Flush.Bytes` reaches the ceiling. -/
def flushBytesWarning : String :=
  "Producer.Flush.Bytes is too close to MaxRequestSize; it will be ignored."

/-- The advisory line logged when `Producer.Timeout` has sub-millisecond precision. -/
def timeoutResolutionWarning : String :=
  "Producer.Timeout only supports millisecond resolution; nanoseconds will be truncated."

/-- The advisory line logged when `Consumer.MaxWaitTime` is below 100ms. -/
def lowWaitWarning : String :=
  "Consumer.MaxWaitTime is very low, which can cause high CPU and network usage. See documentation for details."

/-- The advisory line logged when `Consumer.MaxWaitTime` has sub-millisecond precision. -/
def waitResolutionWarning : String :=
  "Consumer.MaxWaitTime only supports millisecond precision; nanoseconds will be truncated."

/-- The advisory line logged when `ClientID` equals the literal string `sarama`. -/
def clientIDWarning : String :=
  "ClientID is the default of sarama, you should consider setting it to something application-specific."

/-- The advisory block of `Config.Validate` (lines 160-181 of `config.go`):
the seven `Logger.Println` lines, each emitted when its condition holds,
in source order. -/
def validateWarnings (c : Config) : List String :=
  (if c.Producer.RequiredAcks > 1 then [acksWarning] else []) ++
  (if c.Producer.MaxMessageBytes ≥ forceFlushThreshold then [maxMessageBytesWarning] else []) ++
  (if c.Producer.Flush.Bytes ≥ forceFlushThreshold then [flushBytesWarning] else []) ++
  (if Int.tmod c.Producer.Timeout Millisecond ≠ 0 then [timeoutResolutionWarning] else []) ++
  (if c.Consumer.MaxWaitTime < 100 * Millisecond then [lowWaitWarning] else []) ++
  (if Int.tmod c.Consumer.MaxWaitTime Millisecond ≠ 0 then [waitResolutionWarning] else []) ++
  (if c.ClientID = "sarama" then [clientIDWarning] else [])

/-- The `validate Net values` switch of `Config.Validate`: first matching
case wins, in source order. -/
def netCheck (c : Config) : Option ConfigurationError :=
  if c.Net.MaxOpenRequests ≤ 0 then some "Net.MaxOpenRequests must be > 0"
  else if c.Net.DialTimeout ≤ 0 then some "Net.DialTimeout must be > 0"
  else if c.Net.ReadTimeout ≤ 0 then some "Net.ReadTimeout must be > 0"
  else if c.Net.WriteTimeout ≤ 0 then some "Net.WriteTimeout must be > 0"
  else if c.Net.KeepAlive < 0 then some "Net.KeepAlive must be >= 0"
  else none

/-- The `validate the Metadata values` switch of `Config.Validate`. -/
def metadataCheck (c : Config) : Option ConfigurationError :=
  if c.Metadata.Retry.Max < 0 then some "Metadata.Retry.Max must be >= 0"
  else if c.Metadata.Retry.Backoff < 0 then some "Metadata.Retry.Backoff must be >= 0"
  else if c.Metadata.RefreshFrequency < 0 then some "Metadata.RefreshFrequency must be >= 0"
  else none

/-- The `validate the Producer values` switch of `Config.Validate`. -/
def producerCheck (c : Config) : Option ConfigurationError :=
  if c.Producer.MaxMessageBytes ≤ 0 then some "Producer.MaxMessageBytes must be > 0"
  else if c.Producer.RequiredAcks < -1 then some "Producer.RequiredAcks must be >= -1"
  else if c.Producer.Timeout ≤ 0 then some "Producer.Timeout must be > 0"
  else if c.Producer.Partitioner = none then some "Producer.Partitioner must not be nil"
  else if c.Producer.Flush.Bytes < 0 then some "Producer.Flush.Bytes must be >= 0"
  else if c.Producer.Flush.Messages < 0 then some "Producer.Flush.Messages must be >= 0"
  else if c.Producer.Flush.Frequency < 0 then some "Producer.Flush.Frequency must be >= 0"
  else if c.Producer.Flush.MaxMessages < 0 then some "Producer.Flush.MaxMessages must be >= 0"
  else if c.Producer.Flush.MaxMessages > 0 ∧ c.Producer.Flush.MaxMessages < c.Producer.Flush.Messages then
    some "Producer.Flush.MaxMessages must be >= Producer.Flush.Messages when set"
  else if c.Producer.Retry.Max < 0 then some "Producer.Retry.Max must be >= 0"
  else if c.Producer.Retry.Backoff < 0 then some "Producer.Retry.Backoff must be >= 0"
  else none

/-- The `validate the Consumer values` switch of `Config.Validate`. -/
def consumerCheck (c : Config) : Option ConfigurationError :=
  if c.Consumer.Fetch.Min ≤ 0 then some "Consumer.Fetch.Min must be > 0"
  else if c.Consumer.Fetch.Default ≤ 0 then some "Consumer.Fetch.Default must be > 0"
  else if c.Consumer.Fetch.Max < 0 then some "Consumer.Fetch.Max must be >= 0"
  else if c.Consumer.MaxWaitTime < 1 * Millisecond then some "Consumer.MaxWaitTime must be > 1ms"
  else if c.Consumer.Retry.Backoff < 0 then some "Consumer.Retry.Backoff must be >= 0"
  else none

/-- The `validate misc shared values` switch of `Config.Validate`. -/
def miscCheck (c : Config) : Option ConfigurationError :=
  if c.ChannelBufferSize < 0 then some "ChannelBufferSize must be >= 0"
  else none

/-- `Config.Validate` from `config.go`: emits the advisory lines first
(they never return), then runs the five switch blocks in source order,
returning at the first failing case; the result pairs the advisory lines
written to the logging side channel with the fatal outcome
(`none` = success, Go `nil`). -/
def Config.Validate (c : Config) : List String × Option ConfigurationError :=
  (validateWarnings c,
    match netCheck c with
    | some e => some e
    | none =>
      match metadataCheck c with
      | some e => some e
      | none =>
        match producerCheck c with
        | some e => some e
        | none =>
          match consumerCheck c with
          | some e => some e
          | none => miscCheck c)

/-- The conjunction of all fatal invariants checked by `Config.Validate`,
one conjunct per `case` of the five switch blocks, each the negation of its
guard, in source order. -/
def SatisfiesFatalInvariants (c : Config) : Prop :=
  0 < c.Net.MaxOpenRequests ∧ 0 < c.Net.DialTimeout ∧ 0 < c.Net.ReadTimeout ∧
  0 < c.Net.WriteTimeout ∧ 0 ≤ c.Net.KeepAlive ∧
  0 ≤ c.Metadata.Retry.Max ∧ 0 ≤ c.Metadata.Retry.Backoff ∧ 0 ≤ c.Metadata.RefreshFrequency ∧
  0 < c.Producer.MaxMessageBytes ∧ -1 ≤ c.Producer.RequiredAcks ∧ 0 < c.Producer.Timeout ∧
  c.Producer.Partitioner ≠ none ∧
  0 ≤ c.Producer.Flush.Bytes ∧ 0 ≤ c.Producer.Flush.Messages ∧ 0 ≤ c.Producer.Flush.Frequency ∧
  0 ≤ c.Producer.Flush.MaxMessages ∧
  (c.Producer.Flush.MaxMessages = 0 ∨ c.Producer.Flush.Messages ≤ c.Producer.Flush.MaxMessages) ∧
  0 ≤ c.Producer.Retry.Max ∧ 0 ≤ c.Producer.Retry.Backoff ∧
  0 < c.Consumer.Fetch.Min ∧ 0 < c.Consumer.Fetch.Default ∧ 0 ≤ c.Consumer.Fetch.Max ∧
  1 * Millisecond ≤ c.Consumer.MaxWaitTime ∧ 0 ≤ c.Consumer.Retry.Backoff ∧
  0 ≤ c.ChannelBufferSize

instance (c : Config) : Decidable (SatisfiesFatalInvariants c) := by
  unfold SatisfiesFatalInvariants
  infer_instance

/-- The five switch blocks of `Config.Validate`, indexed in source order:
0 = Net, 1 = Metadata, 2 = Producer, 3 = Consumer, 4 = misc shared. -/
def groupCheck : Nat → Config → Option ConfigurationError
  | 0 => netCheck
  | 1 => metadataCheck
  | 2 => producerCheck
  | 3 => consumerCheck
  | 4 => miscCheck
  | _ => fun _ => none

/-- State-passing form of `Config.Validate`: the Go method reads through a
pointer receiver and contains no assignment to any field, so the post-state
is the unchanged receiver, returned alongside the log and the result. -/
def validateRun (c : Config) : Config × (List String × Option ConfigurationError) :=
  (c, Config.Validate c)

/-- Replace exactly the five fields of a `Config` that `Config.Validate`
reads only for advisory logging or not at all: `Producer.Compression`,
`Producer.Return.Successes`, `Producer.Return.Errors`,
`Consumer.Return.Errors` and `ClientID`. -/
def setObserverFields (c : Config) (comp : Int) (ps pe ce : Bool) (cid : String) : Config :=
  { c with
    Producer := { c.Producer with
                  Compression := comp
                  Return := { Successes := ps, Errors := pe } }
    Consumer := { c.Consumer with Return := { Errors := ce } }
    ClientID := cid }

/-- The default configuration with `Consumer.MaxWaitTime` replaced. -/
def waitConfig (d : Int) : Config :=
  { NewConfig with Consumer := { NewConfig.Consumer with MaxWaitTime := d } }

/-- A configuration violating a Metadata invariant (`Metadata.Retry.Max = -1`)
and a later misc invariant (`ChannelBufferSize = -1`) while every Net
invariant holds. -/
def groupOrderConfig : Config :=
  { NewConfig with
    Metadata := { NewConfig.Metadata with Retry := { Max := -1, Backoff := 250 * Millisecond } }
    ChannelBufferSize := -1 }

/-- A configuration violating both `Consumer.Retry.Backoff ≥ 0` and
`Consumer.Fetch.Min > 0` while every Net, Metadata and Producer invariant
holds. -/
def consumerOrderConfig : Config :=
  { NewConfig with
    Consumer := { NewConfig.Consumer with
                  Retry := { Backoff := -1 }
                  Fetch := { Min := 0, Default := 32768, Max := 0 } } }

/-- The default configuration with `Producer.Flush.Messages` and
`Producer.Flush.MaxMessages` replaced. -/
def flushConfig (messages maxMessages : Int) : Config :=
  { NewConfig with
    Producer := { NewConfig.Producer with
                  Flush := { Bytes := 0, Messages := messages, Frequency := 0,
                             MaxMessages := maxMessages } } }

/-- The default configuration with `Producer.RequiredAcks` replaced. -/
def acksConfig (a : Int) : Config :=
  { NewConfig with Producer := { NewConfig.Producer with RequiredAcks := a } }

/-- A configuration triggering all seven advisory conditions at once while
satisfying every fatal invariant. -/
def allAdvisoriesConfig : Config :=
  { NewConfig with
    Producer := { NewConfig.Producer with
                  RequiredAcks := 2
                  MaxMessageBytes := forceFlushThreshold
                  Timeout := 10 * Second + 1
                  Flush := { Bytes := forceFlushThreshold, Messages := 0, Frequency := 0,
                             MaxMessages := 0 } }
    Consumer := { NewConfig.Consumer with MaxWaitTime := 50 * Millisecond + 1 }
    ClientID := "sarama" }

lemma netCheck_eq_none_iff (c : Config) :
    netCheck c = none ↔
      (0 < c.Net.MaxOpenRequests ∧ 0 < c.Net.DialTimeout ∧ 0 < c.Net.ReadTimeout ∧
        0 < c.Net.WriteTimeout ∧ 0 ≤ c.Net.KeepAlive) := by
  unfold netCheck
  split_ifs with h1 h2 h3 h4 h5
  · exact iff_of_false (by simp) (by omega)
  · exact iff_of_false (by simp) (by omega)
  · exact iff_of_false (by simp) (by omega)
  · exact iff_of_false (by simp) (by omega)
  · exact iff_of_false (by simp) (by omega)
  · exact iff_of_true rfl (by omega)

lemma metadataCheck_eq_none_iff (c : Config) :
    metadataCheck c = none ↔
      (0 ≤ c.Metadata.Retry.Max ∧ 0 ≤ c.Metadata.Retry.Backoff ∧
        0 ≤ c.Metadata.RefreshFrequency) := by
  unfold metadataCheck
  split_ifs with h1 h2 h3
  · exact iff_of_false (by simp) (by omega)
  · exact iff_of_false (by simp) (by omega)
  · exact iff_of_false (by simp) (by omega)
  · exact iff_of_true rfl (by omega)

set_option maxHeartbeats 1600000 in
lemma producerCheck_eq_none_iff (c : Config) :
    producerCheck c = none ↔
      (0 < c.Producer.MaxMessageBytes ∧ -1 ≤ c.Producer.RequiredAcks ∧
        0 < c.Producer.Timeout ∧ c.Producer.Partitioner ≠ none ∧
        0 ≤ c.Producer.Flush.Bytes ∧ 0 ≤ c.Producer.Flush.Messages ∧
        0 ≤ c.Producer.Flush.Frequency ∧ 0 ≤ c.Producer.Flush.MaxMessages ∧
        (c.Producer.Flush.MaxMessages = 0 ∨
          c.Producer.Flush.Messages ≤ c.Producer.Flush.MaxMessages) ∧
        0 ≤ c.Producer.Retry.Max ∧ 0 ≤ c.Producer.Retry.Backoff) := by
  unfold producerCheck
  split_ifs with h1 h2 h3 h4 h5 h6 h7 h8 h9 h10 h11
  · exact iff_of_false (by simp) (by omega)
  · exact iff_of_false (by simp) (by omega)
  · exact iff_of_false (by simp) (by omega)
  · exact iff_of_false (by simp) (by tauto)
  · exact iff_of_false (by simp) (by omega)
  · exact iff_of_false (by simp) (by omega)
  · exact iff_of_false (by simp) (by omega)
  · exact iff_of_false (by simp) (by omega)
  · exact iff_of_false (by simp) (by omega)
  · exact iff_of_false (by simp) (by omega)
  · exact iff_of_false (by simp) (by omega)
  · exact iff_of_true rfl ⟨by omega, by omega, by omega, h4, by omega, by omega, by omega,
      by omega, by omega, by omega, by omega⟩

lemma consumerCheck_eq_none_iff (c : Config) :
    consumerCheck c = none ↔
      (0 < c.Consumer.Fetch.Min ∧ 0 < c.Consumer.Fetch.Default ∧
        0 ≤ c.Consumer.Fetch.Max ∧ 1 * Millisecond ≤ c.Consumer.MaxWaitTime ∧
        0 ≤ c.Consumer.Retry.Backoff) := by
  unfold consumerCheck
  split_ifs with h1 h2 h3 h4 h5
  · exact iff_of_false (by simp) (by omega)
  · exact iff_of_false (by simp) (by omega)
  · exact iff_of_false (by simp) (by omega)
  · exact iff_of_false (by simp) (by omega)
  · exact iff_of_false (by simp) (by omega)
  · exact iff_of_true rfl (by omega)

lemma miscCheck_eq_none_iff (c : Config) :
    miscCheck c = none ↔ 0 ≤ c.ChannelBufferSize := by
  unfold miscCheck
  split_ifs with h1
  · exact iff_of_false (by simp) (by omega)
  · exact iff_of_true rfl (by omega)

lemma validate_fst (c : Config) : (Config.Validate c).1 = validateWarnings c := rfl

lemma validate_snd_eq_none_iff (c : Config) :
    (Config.Validate c).2 = none ↔
      (netCheck c = none ∧ metadataCheck c = none ∧ producerCheck c = none ∧
        consumerCheck c = none ∧ miscCheck c = none) := by
  simp only [Config.Validate]
  rcases h1 : netCheck c with _ | e
  · rcases h2 : metadataCheck c with _ | e
    · rcases h3 : producerCheck c with _ | e
      · rcases h4 : consumerCheck c with _ | e
        · simp [h1, h2, h3, h4]
        · simp [h1, h2, h3, h4]
      · simp [h1, h2, h3]
    · simp [h1, h2]
  · simp [h1]

lemma count_ite_zero (p : Prop) [Decidable p] (w a : String) (h : a ≠ w) :
    List.count a (if p then [w] else []) = 0 := by
  rw [List.count_eq_zero]
  split
  · simp [h]
  · simp

/-- C1: `NewConfig` takes no input, is a fixed value (hence deterministic
and never failing), populates exactly the documented defaults, and the
default-constructed configuration passes `Config.Validate` with no fatal
error. -/
theorem newConfig_defaults_and_valid :
    NewConfig.Net.MaxOpenRequests = 5 ∧
    NewConfig.Net.DialTimeout = 30 * Second ∧
    NewConfig.Net.ReadTimeout = 30 * Second ∧
    NewConfig.Net.WriteTimeout = 30 * Second ∧
    NewConfig.Net.KeepAlive = 0 ∧
    NewConfig.Metadata.Retry.Max = 3 ∧
    NewConfig.Metadata.Retry.Backoff = 250 * Millisecond ∧
    NewConfig.Metadata.RefreshFrequency = 10 * Minute ∧
    NewConfig.Producer.MaxMessageBytes = 1000000 ∧
    NewConfig.Producer.RequiredAcks = WaitForLocal ∧
    NewConfig.Producer.Timeout = 10 * Second ∧
    NewConfig.Producer.Partitioner = some PartitionerConstructor.NewHashPartitioner ∧
    NewConfig.Producer.Retry.Max = 3 ∧
    NewConfig.Producer.Retry.Backoff = 100 * Millisecond ∧
    NewConfig.Producer.Return.Errors = true ∧
    NewConfig.Producer.Return.Successes = false ∧
    NewConfig.Consumer.Fetch.Min = 1 ∧
    NewConfig.Consumer.Fetch.Default = 32768 ∧
    NewConfig.Consumer.Retry.Backoff = 2 * Second ∧
    NewConfig.Consumer.MaxWaitTime = 250 * Millisecond ∧
    NewConfig.Consumer.Return.Errors = false ∧
    NewConfig.ChannelBufferSize = 256 ∧
    (Config.Validate NewConfig).2 = none := by
  decide

/-- C2: `Config.Validate` runs the five fatal groups in the fixed order
Net, Metadata, Producer, Consumer, misc, returning the error of the first
group that fails (so of two violated groups, the earlier one wins and the
later group is never reported), while the advisory lines are always the
full advisory block, emitted independently of any fatal failure. -/
theorem validate_group_priority (c : Config) (i : Nat) (e : ConfigurationError)
    (hi : groupCheck i c = some e)
    (hbefore : ∀ k, k < i → groupCheck k c = none) :
    (Config.Validate c).1 = validateWarnings c ∧ (Config.Validate c).2 = some e := by
  refine ⟨rfl, ?_⟩
  rcases i with _ | _ | _ | _ | _ | n
  · have h : netCheck c = some e := hi
    simp [Config.Validate, h]
  · have h0 : netCheck c = none := hbefore 0 (by omega)
    have h : metadataCheck c = some e := hi
    simp [Config.Validate, h0, h]
  · have h0 : netCheck c = none := hbefore 0 (by omega)
    have h1 : metadataCheck c = none := hbefore 1 (by omega)
    have h : producerCheck c = some e := hi
    simp [Config.Validate, h0, h1, h]
  · have h0 : netCheck c = none := hbefore 0 (by omega)
    have h1 : metadataCheck c = none := hbefore 1 (by omega)
    have h2 : producerCheck c = none := hbefore 2 (by omega)
    have h : consumerCheck c = some e := hi
    simp [Config.Validate, h0, h1, h2, h]
  · have h0 : netCheck c = none := hbefore 0 (by omega)
    have h1 : metadataCheck c = none := hbefore 1 (by omega)
    have h2 : producerCheck c = none := hbefore 2 (by omega)
    have h3 : consumerCheck c = none := hbefore 3 (by omega)
    have h : miscCheck c = some e := hi
    simp [Config.Validate, h0, h1, h2, h3, h]
  · exact Option.noConfusion hi

/-- Witness for C2 at `groupOrderConfig`, whose Metadata group (index 1)
and misc group (index 4) are both violated: validation reports the
Metadata error. -/
theorem validate_group_priority_witness :
    (Config.Validate groupOrderConfig).1 = validateWarnings groupOrderConfig ∧
    (Config.Validate groupOrderConfig).2 = some "Metadata.Retry.Max must be >= 0" :=
  validate_group_priority groupOrderConfig 1 "Metadata.Retry.Max must be >= 0"
    (by decide)
    (by
      intro k hk
      have hk0 : k = 0 := by omega
      subst hk0
      decide)

/-- C9: the validator is a pure read-only predicate: the post-state of a
run is the unchanged input configuration, the log is exactly the advisory
block, and validating the resulting state again returns the same log and
the same result. -/
theorem validate_readonly_deterministic (c : Config) :
    (validateRun c).1 = c ∧
    (validateRun c).2.1 = validateWarnings c ∧
    validateRun ((validateRun c).1) = validateRun c :=
  ⟨rfl, rfl, rfl⟩

/-- C10: replacing `Producer.Compression`, `Producer.Return.Successes`,
`Producer.Return.Errors`, `Consumer.Return.Errors` and `ClientID` by any
values leaves the fatal outcome of `Config.Validate` unchanged — so two
configurations differing only in those fields succeed together or fail
with the same fatal error. -/
theorem validate_observer_fields_noninterference (c : Config) (comp : Int)
    (ps pe ce : Bool) (cid : String) :
    (Config.Validate (setObserverFields c comp ps pe ce cid)).2 = (Config.Validate c).2 :=
  rfl

/-- C3 counterexample: the claim says every configuration whose
`Consumer.MaxWaitTime` is not strictly greater than 1ms — including exactly
1ms — fails fatally, but the source guard is `MaxWaitTime < 1ms`, so the
default configuration with `MaxWaitTime` set to exactly 1ms validates with
no fatal error. -/
theorem maxWaitTime_exactly_one_ms_passes :
    (waitConfig (1 * Millisecond)).Consumer.MaxWaitTime = 1 * Millisecond ∧
    (Config.Validate (waitConfig (1 * Millisecond))).2 = none := by
  decide

/-- C3 amended: `Config.Validate` fails fatally whenever
`Consumer.MaxWaitTime < 1ms` (in particular at 0, where it reports the
MaxWaitTime error), exactly 1ms passes, and 50ms passes while emitting the
very-low advisory that fires below 100ms. -/
theorem maxWaitTime_fatal_floor :
    (∀ c : Config, c.Consumer.MaxWaitTime < 1 * Millisecond →
      (Config.Validate c).2 ≠ none) ∧
    (Config.Validate (waitConfig 0)).2 = some "Consumer.MaxWaitTime must be > 1ms" ∧
    (Config.Validate (waitConfig (1 * Millisecond))).2 = none ∧
    (Config.Validate (waitConfig (50 * Millisecond))).2 = none ∧
    lowWaitWarning ∈ (Config.Validate (waitConfig (50 * Millisecond))).1 := by
  refine ⟨?_, by decide, by decide, by decide, by decide⟩
  intro c h hnone
  rw [validate_snd_eq_none_iff] at hnone
  have hw := ((consumerCheck_eq_none_iff c).1 hnone.2.2.2.1).2.2.2.1
  omega

/-- Witness for the amended C3 at `MaxWaitTime = 0`. -/
theorem maxWaitTime_fatal_floor_witness :
    (Config.Validate (waitConfig 0)).2 ≠ none :=
  maxWaitTime_fatal_floor.1 (waitConfig 0) (by decide)

/-- C4 counterexample: the default constructor leaves `ClientID` empty
(its documentation notwithstanding), and on that configuration the
default-ClientID advisory is emitted zero times, not once, while
validation still succeeds. -/
theorem clientID_default_advisory_counterexample :
    NewConfig.ClientID = "" ∧
    List.count clientIDWarning (Config.Validate NewConfig).1 = 0 ∧
    (Config.Validate NewConfig).2 = none := by
  decide

/-- C4 amended: the default-ClientID advisory is emitted exactly once per
validation call when `ClientID` equals the literal string `sarama` and
zero times otherwise; `NewConfig` leaves `ClientID` empty, so it triggers
no advisory; and `ClientID` never influences the fatal outcome. -/
theorem clientID_advisory_iff_sarama :
    (∀ c : Config, List.count clientIDWarning (Config.Validate c).1 =
      if c.ClientID = "sarama" then 1 else 0) ∧
    NewConfig.ClientID = "" ∧
    (∀ (c : Config) (s : String),
      (Config.Validate { c with ClientID := s }).2 = (Config.Validate c).2) := by
  refine ⟨?_, rfl, fun c s => rfl⟩
  intro c
  show List.count clientIDWarning (validateWarnings c) = _
  unfold validateWarnings
  simp only [List.count_append]
  rw [count_ite_zero _ acksWarning _ (by decide),
      count_ite_zero _ maxMessageBytesWarning _ (by decide),
      count_ite_zero _ flushBytesWarning _ (by decide),
      count_ite_zero _ timeoutResolutionWarning _ (by decide),
      count_ite_zero _ lowWaitWarning _ (by decide),
      count_ite_zero _ waitResolutionWarning _ (by decide)]
  simp only [zero_add]
  split
  · simp
  · simp

/-- C5 counterexample: on a configuration violating both
`Consumer.Retry.Backoff ≥ 0` and `Consumer.Fetch.Min > 0` (with all
earlier groups passing), validation reports the Fetch.Min error, not the
Retry.Backoff error the claim predicts — the source checks Fetch.Min
first and Retry.Backoff last within the Consumer group. -/
theorem consumer_order_counterexample :
    consumerOrderConfig.Consumer.Retry.Backoff < 0 ∧
    consumerOrderConfig.Consumer.Fetch.Min ≤ 0 ∧
    netCheck consumerOrderConfig = none ∧
    metadataCheck consumerOrderConfig = none ∧
    producerCheck consumerOrderConfig = none ∧
    (Config.Validate consumerOrderConfig).2 = some "Consumer.Fetch.Min must be > 0" ∧
    (Config.Validate consumerOrderConfig).2 ≠ some "Consumer.Retry.Backoff must be >= 0" := by
  decide

/-- C5 amended: within the Consumer group the checks run in the source
order Fetch.Min, Fetch.Default, Fetch.Max, MaxWaitTime, Retry.Backoff, so
every configuration that passes the Network, Metadata and Producer groups
and violates both `Consumer.Retry.Backoff ≥ 0` and `Consumer.Fetch.Min > 0`
reports the Consumer.Fetch.Min error. -/
theorem consumer_fetch_min_reported_first (c : Config)
    (hnet : netCheck c = none) (hmeta : metadataCheck c = none)
    (hprod : producerCheck c = none)
    (hb : c.Consumer.Retry.Backoff < 0) (hm : c.Consumer.Fetch.Min ≤ 0) :
    (Config.Validate c).2 = some "Consumer.Fetch.Min must be > 0" := by
  have hc : consumerCheck c = some "Consumer.Fetch.Min must be > 0" := by
    unfold consumerCheck
    rw [if_pos hm]
  simp [Config.Validate, hnet, hmeta, hprod, hc]

/-- Witness for the amended C5 at `consumerOrderConfig`. -/
theorem consumer_fetch_min_reported_first_witness :
    (Config.Validate consumerOrderConfig).2 = some "Consumer.Fetch.Min must be > 0" :=
  consumer_fetch_min_reported_first consumerOrderConfig
    (by decide) (by decide) (by decide) (by decide) (by decide)

/-- C6: once the earlier Producer checks pass, the cross-field rule fires
exactly when `Flush.MaxMessages` is nonzero yet below `Flush.Messages`;
concretely, MaxMessages 5 with Messages 10 fails with the cross-field
error, 10 with 10 passes, and 0 with 10 passes (0 is exempt). -/
theorem flush_max_messages_cross_rule (c : Config)
    (h1 : 0 < c.Producer.MaxMessageBytes) (h2 : -1 ≤ c.Producer.RequiredAcks)
    (h3 : 0 < c.Producer.Timeout) (h4 : c.Producer.Partitioner ≠ none)
    (h5 : 0 ≤ c.Producer.Flush.Bytes) (h6 : 0 ≤ c.Producer.Flush.Messages)
    (h7 : 0 ≤ c.Producer.Flush.Frequency) (h8 : 0 ≤ c.Producer.Flush.MaxMessages) :
    (producerCheck c =
        some "Producer.Flush.MaxMessages must be >= Producer.Flush.Messages when set" ↔
      c.Producer.Flush.MaxMessages > 0 ∧
        c.Producer.Flush.MaxMessages < c.Producer.Flush.Messages) ∧
    (Config.Validate (flushConfig 10 5)).2 =
      some "Producer.Flush.MaxMessages must be >= Producer.Flush.Messages when set" ∧
    (Config.Validate (flushConfig 10 10)).2 = none ∧
    (Config.Validate (flushConfig 10 0)).2 = none := by
  refine ⟨?_, by decide, by decide, by decide⟩
  unfold producerCheck
  rw [if_neg (by omega), if_neg (by omega), if_neg (by omega), if_neg h4,
      if_neg (by omega), if_neg (by omega), if_neg (by omega), if_neg (by omega)]
  by_cases hc : c.Producer.Flush.MaxMessages > 0 ∧
      c.Producer.Flush.MaxMessages < c.Producer.Flush.Messages
  · rw [if_pos hc]
    exact iff_of_true rfl hc
  · rw [if_neg hc]
    refine iff_of_false ?_ hc
    split_ifs <;> simp

/-- Witness for C6: the cross-field rule fires at `flushConfig 10 5`. -/
theorem flush_max_messages_cross_rule_witness :
    producerCheck (flushConfig 10 5) =
      some "Producer.Flush.MaxMessages must be >= Producer.Flush.Messages when set" :=
  (flush_max_messages_cross_rule (flushConfig 10 5) (by decide) (by decide) (by decide)
      (by decide) (by decide) (by decide) (by decide) (by decide)).1.mpr (by decide)

/-- C7: once the MaxMessageBytes check passes, the Producer group fails
with the RequiredAcks error exactly when `RequiredAcks < -1`; concretely
-2 fails fatally, while 2 passes validation and emits the deprecated-acks
advisory. -/
theorem requiredAcks_bounds (c : Config) (h : 0 < c.Producer.MaxMessageBytes) :
    (producerCheck c = some "Producer.RequiredAcks must be >= -1" ↔
      c.Producer.RequiredAcks < -1) ∧
    (Config.Validate (acksConfig (-2))).2 = some "Producer.RequiredAcks must be >= -1" ∧
    (Config.Validate (acksConfig 2)).2 = none ∧
    acksWarning ∈ (Config.Validate (acksConfig 2)).1 := by
  refine ⟨?_, by decide, by decide, by decide⟩
  unfold producerCheck
  rw [if_neg (by omega)]
  by_cases ha : c.Producer.RequiredAcks < -1
  · rw [if_pos ha]
    exact iff_of_true rfl ha
  · rw [if_neg ha]
    refine iff_of_false ?_ ha
    split_ifs <;> simp

/-- Witness for C7: the RequiredAcks error fires at `acksConfig (-2)`. -/
theorem requiredAcks_bounds_witness :
    producerCheck (acksConfig (-2)) = some "Producer.RequiredAcks must be >= -1" :=
  (requiredAcks_bounds (acksConfig (-2)) (by decide)).1.mpr (by decide)

/-- C8: the fatal outcome of `Config.Validate` is success exactly when the
fatal invariants hold — a characterization that never mentions an advisory
condition — and the configuration that triggers all seven advisories at
once still validates successfully, logging exactly the seven advisory
lines. -/
theorem advisories_never_affect_outcome :
    (∀ c : Config, ((Config.Validate c).2 = none ↔ SatisfiesFatalInvariants c)) ∧
    SatisfiesFatalInvariants allAdvisoriesConfig ∧
    (Config.Validate allAdvisoriesConfig).2 = none ∧
    (Config.Validate allAdvisoriesConfig).1 =
      [acksWarning, maxMessageBytesWarning, flushBytesWarning, timeoutResolutionWarning,
        lowWaitWarning, waitResolutionWarning, clientIDWarning] := by
  refine ⟨?_, by decide, by decide, by decide⟩
  intro c
  rw [validate_snd_eq_none_iff, netCheck_eq_none_iff, metadataCheck_eq_none_iff,
      producerCheck_eq_none_iff, consumerCheck_eq_none_iff, miscCheck_eq_none_iff]
  unfold SatisfiesFatalInvariants
  simp only [and_assoc]

end Sarama
